import Mathlib

/-!
Verification of the PhotoSense-AI desktop supervisor.

The development shallowly embeds the process-supervision logic of the
repository's two Tauri wrappers:

* `src/packaging/frontend/src/main.rs` — the main supervisor: global PID
  tracking (`BACKEND_PID`, `CLEANUP_DONE`), one-shot cleanup
  (`kill_backend_by_pid`), port/health probing
  (`is_port_open`, `check_backend_health_sync`), the readiness wait loop
  (`wait_for_backend_sync`), sidecar spawning (`spawn_backend`), the output
  relay event loop inside `spawn_backend`, the `setup` hook and
  `cleanup_backend`.
* `src/apps/desktop/src-tauri/src/main.rs` — the desktop variant:
  `start_backend` (path resolution, spawn) and `wait_for_backend`.

External effects (TCP connects, HTTP requests, process spawns, sleeps) are
modelled by oracles passed in explicitly; each embedded function returns, in
addition to its result, the observable side effects it performed (kills
issued, events emitted, attempts made, sleeps performed), so the theorems can
speak about those effects. Real durations of the network probes themselves
are outside the model; blocking time is accounted as the number of fixed
sleeps times the poll interval.
-/

namespace PhotoSense

/-- Constant from the source: `const BACKEND_PORT: u16 = 8000;`. -/
def BACKEND_PORT : Nat := 8000

/-- Constant from the source: `const HEALTH_CHECK_TIMEOUT_SECS: u64 = 2;`. -/
def HEALTH_CHECK_TIMEOUT_SECS : Nat := 2

/-- Constant from the source: `const MAX_STARTUP_ATTEMPTS: u32 = 120;`. -/
def MAX_STARTUP_ATTEMPTS : Nat := 120

/-- The fixed poll interval of both wait loops:
`thread::sleep(Duration::from_millis(500))`. -/
def POLL_INTERVAL_MS : Nat := 500

/-- The process-wide atomics of the frontend wrapper:
`static BACKEND_PID: AtomicU32` and `static CLEANUP_DONE: AtomicBool`.
Sequences of atomic operations are modelled by explicit state passing; the
atomic `swap` of the one-shot flag is a single step of this state machine,
which is exactly the linearization the hardware primitive guarantees. -/
structure TermGlobals where
  backendPid : Nat
  cleanupDone : Bool
deriving DecidableEq, Repr

/-- Initial values of the globals: `AtomicU32::new(0)`, `AtomicBool::new(false)`. -/
def initGlobals : TermGlobals := ⟨0, false⟩

/-- Embedding of `kill_backend_by_pid` (frontend `main.rs:36-67`):

```
if CLEANUP_DONE.swap(true, Ordering::SeqCst) { return; }
let pid = BACKEND_PID.load(Ordering::SeqCst);
if pid == 0 { return; }
... kill pid (process group and process) ...
```

Returns the updated globals and `some pid` when the kill body ran (a
forceful kill was issued to `pid`), `none` when the function returned
without killing. Note the swap sets `cleanupDone` even on the `pid == 0`
early return, exactly as the source does. -/
def kill_backend_by_pid (g : TermGlobals) : TermGlobals × Option Nat :=
  match g.cleanupDone with
  | true => (g, none)
  | false =>
    if g.backendPid = 0 then ({ g with cleanupDone := true }, none)
    else ({ g with cleanupDone := true }, some g.backendPid)

/-- A sequence of `n` successive invocations of `kill_backend_by_pid`, as
fired by any interleaving of the trigger paths (panic hook, ctrlc signal
handler, window-close cleanup, `RunEvent::Exit` cleanup): since every
trigger path runs the same routine and the flag operation is an atomic
swap, any concurrent firing linearizes to such a sequence. Returns the
final globals and the per-call kill effects in order. -/
def runKills : Nat → TermGlobals → TermGlobals × List (Option Nat)
  | 0, g => (g, [])
  | n + 1, g =>
    ((runKills n (kill_backend_by_pid g).1).1,
      (kill_backend_by_pid g).2 :: (runKills n (kill_backend_by_pid g).1).2)

theorem kill_done_eq (g : TermGlobals) (h : g.cleanupDone = true) :
    kill_backend_by_pid g = (g, none) := by
  simp [kill_backend_by_pid, h]

theorem kill_sets_done (g : TermGlobals) :
    (kill_backend_by_pid g).1.cleanupDone = true := by
  cases h : g.cleanupDone with
  | true => simp [kill_backend_by_pid, h]
  | false =>
    simp only [kill_backend_by_pid, h]
    split <;> rfl

theorem runKills_done (n : Nat) (g : TermGlobals) (h : g.cleanupDone = true) :
    runKills n g = (g, List.replicate n none) := by
  induction n with
  | zero => simp [runKills]
  | succ n ih => simp [runKills, kill_done_eq g h, ih, List.replicate_succ]

theorem filter_isSome_replicate_none (m : Nat) :
    (List.replicate m (none : Option Nat)).filter (fun o => o.isSome) = [] := by
  induction m with
  | zero => rfl
  | succ m ih => simp [List.replicate_succ, List.filter_cons, ih]

theorem all_isNone_replicate (m : Nat) :
    ((List.replicate m (none : Option Nat)).all fun o => o.isNone) = true := by
  induction m with
  | zero => rfl
  | succ m ih => simp [List.replicate_succ, ih]

/-- C1: the one-shot cleanup routine executes its kill body at most once.
For every sequence of `n ≥ 1` calls to `kill_backend_by_pid` starting from a
state whose `CLEANUP_DONE` flag is still false (any interleaving of the
panic-hook, signal-handler, window-close and exit-event triggers): at most
one call issues a kill; the flag is true after the sequence (it transitions
false→true exactly once, at the first call, and no later call can transition
it again); once any call has set the flag, every subsequent call returns
without performing the kill and without changing the state; and every call
after the first performs no kill. -/
theorem C1_cleanup_one_shot (g : TermGlobals) (n : Nat)
    (h0 : g.cleanupDone = false) (hn : 1 ≤ n) :
    ((runKills n g).2.filter fun o => o.isSome).length ≤ 1 ∧
    (runKills n g).1.cleanupDone = true ∧
    (kill_backend_by_pid g).1.cleanupDone = true ∧
    (∀ g2 : TermGlobals, g2.cleanupDone = true → kill_backend_by_pid g2 = (g2, none)) ∧
    (g.backendPid ≠ 0 → (kill_backend_by_pid g).2 = some g.backendPid) ∧
    (((runKills n g).2.drop 1).all fun o => o.isNone) = true := by
  obtain ⟨m, rfl⟩ : ∃ m, n = m + 1 := ⟨n - 1, by omega⟩
  have hdone := kill_sets_done g
  have hrest := runKills_done m (kill_backend_by_pid g).1 hdone
  refine ⟨?_, ?_, hdone, fun g2 h2 => kill_done_eq g2 h2,
    fun hp => by simp [kill_backend_by_pid, h0, hp], ?_⟩
  · show ((runKills (m + 1) g).2.filter fun o => o.isSome).length ≤ 1
    cases hk : (kill_backend_by_pid g).2 <;>
      simp [runKills, hrest, hk, List.filter_cons, filter_isSome_replicate_none]
  · show (runKills (m + 1) g).1.cleanupDone = true
    simp [runKills, hrest, hdone]
  · show (((runKills (m + 1) g).2.drop 1).all fun o => o.isNone) = true
    simp [runKills, hrest, all_isNone_replicate]

/-- Witness for C1 at a concrete state (pid 5, flag clear) and three calls. -/
theorem C1_cleanup_one_shot_witness :
    TermGlobals.cleanupDone ⟨5, false⟩ = false ∧ 1 ≤ 3 ∧
    (((runKills 3 ⟨5, false⟩).2.filter fun o => o.isSome).length ≤ 1 ∧
      (runKills 3 (⟨5, false⟩ : TermGlobals)).1.cleanupDone = true ∧
      (kill_backend_by_pid ⟨5, false⟩).1.cleanupDone = true ∧
      (∀ g2 : TermGlobals, g2.cleanupDone = true → kill_backend_by_pid g2 = (g2, none)) ∧
      (TermGlobals.backendPid ⟨5, false⟩ ≠ 0 →
        (kill_backend_by_pid ⟨5, false⟩).2 = some (TermGlobals.backendPid ⟨5, false⟩)) ∧
      (((runKills 3 (⟨5, false⟩ : TermGlobals)).2.drop 1).all fun o => o.isNone) = true) :=
  ⟨rfl, by omega, C1_cleanup_one_shot ⟨5, false⟩ 3 rfl (by omega)⟩

/-- Observable trace of one run of the readiness wait loop: the boolean the
loop returns, the number of loop iterations (attempts) executed, the number
of `thread::sleep(Duration::from_millis(500))` calls performed, and the list
of attempt indices at which the health check was invoked. -/
structure WaitTrace where
  result : Bool
  attempts : Nat
  sleeps : Nat
  healthCalls : List Nat
deriving DecidableEq, Repr

/-- Body of `wait_for_backend_sync` (frontend `main.rs:96-114`), the
`for attempt in 1..=max_attempts` loop, as structural recursion on the
remaining fuel with `attempt` the current index. The port probe
(`is_port_open`, a TCP connect with a 2 s timeout) and the health check
(`check_backend_health_sync`) are oracles indexed by the attempt number:

```
if is_port_open(BACKEND_HOST, port) {
    if check_backend_health_sync(port) { return true; }
}
... progress print every 10 attempts (log only) ...
thread::sleep(Duration::from_millis(500));
```
-/
def waitAux (portOpen healthy : Nat → Bool) : Nat → Nat → WaitTrace
  | _, 0 => ⟨false, 0, 0, []⟩
  | attempt, fuel + 1 =>
    match portOpen attempt with
    | true =>
      match healthy attempt with
      | true => ⟨true, 1, 0, [attempt]⟩
      | false =>
        let t := waitAux portOpen healthy (attempt + 1) fuel
        ⟨t.result, t.attempts + 1, t.sleeps + 1, attempt :: t.healthCalls⟩
    | false =>
      let t := waitAux portOpen healthy (attempt + 1) fuel
      ⟨t.result, t.attempts + 1, t.sleeps + 1, t.healthCalls⟩

/-- `wait_for_backend_sync(port, max_attempts)`: the loop starts at
attempt 1 and runs at most `max_attempts` iterations. -/
def wait_for_backend_sync (portOpen healthy : Nat → Bool) (max_attempts : Nat) : WaitTrace :=
  waitAux portOpen healthy 1 max_attempts

/-- Body of the desktop variant `wait_for_backend` (desktop
`main.rs:43-55`), the `for i in 1..=max_seconds * 2` loop; this variant
probes only TCP readiness (`is_backend_ready`, oracle `ready`). Returns
(result, iterations, sleeps). -/
def waitDAux (ready : Nat → Bool) : Nat → Nat → Bool × Nat × Nat
  | _, 0 => (false, 0, 0)
  | i, fuel + 1 =>
    match ready i with
    | true => (true, 1, 0)
    | false =>
      let t := waitDAux ready (i + 1) fuel
      (t.1, t.2.1 + 1, t.2.2 + 1)

/-- `wait_for_backend(max_seconds)` of the desktop wrapper: at most
`max_seconds * 2` iterations of 500 ms each. -/
def wait_for_backend (ready : Nat → Bool) (max_seconds : Nat) : Bool × Nat × Nat :=
  waitDAux ready 1 (max_seconds * 2)

theorem waitAux_attempts_le (p h : Nat → Bool) (s f : Nat) :
    (waitAux p h s f).attempts ≤ f := by
  induction f generalizing s with
  | zero => simp [waitAux]
  | succ f ih =>
    cases hp : p s with
    | true =>
      cases hh : h s with
      | true => simp [waitAux, hp, hh]
      | false => simp only [waitAux, hp, hh]; exact Nat.succ_le_succ (ih (s + 1))
    | false => simp only [waitAux, hp]; exact Nat.succ_le_succ (ih (s + 1))

theorem waitAux_sleeps_le (p h : Nat → Bool) (s f : Nat) :
    (waitAux p h s f).sleeps ≤ f := by
  induction f generalizing s with
  | zero => simp [waitAux]
  | succ f ih =>
    cases hp : p s with
    | true =>
      cases hh : h s with
      | true => simp [waitAux, hp, hh]
      | false => simp only [waitAux, hp, hh]; exact Nat.succ_le_succ (ih (s + 1))
    | false => simp only [waitAux, hp]; exact Nat.succ_le_succ (ih (s + 1))

theorem waitDAux_le (r : Nat → Bool) (s f : Nat) :
    (waitDAux r s f).2.1 ≤ f ∧ (waitDAux r s f).2.2 ≤ f := by
  induction f generalizing s with
  | zero => simp [waitDAux]
  | succ f ih =>
    cases hr : r s with
    | true => simp [waitDAux, hr]
    | false =>
      simp only [waitDAux, hr]
      exact ⟨Nat.succ_le_succ (ih (s + 1)).1, Nat.succ_le_succ (ih (s + 1)).2⟩

/-- C2: attempt and blocking-time budget of the two readiness wait loops.
For `wait_for_backend_sync` the configuration is (attempt budget
`max_attempts`, interval 500 ms), so the configured timeout is
`max_attempts * 500` ms and `ceil(timeout / interval) = max_attempts`; for
the desktop `wait_for_backend` the configuration is `max_seconds` seconds
with a 500 ms interval, so `ceil(timeout / interval) = max_seconds * 2`,
the exact loop bound. Each loop makes at most that many probe attempts, and
its total sleep time (the blocking the loop itself adds between probes) is
at most the timeout, hence at most the timeout plus one interval. Durations
of the probes themselves (each bounded by the 2 s connect/request timeouts)
are outside this accounting. -/
theorem C2_attempt_budget (portOpen healthy ready : Nat → Bool)
    (max_attempts max_seconds : Nat) :
    (wait_for_backend_sync portOpen healthy max_attempts).attempts ≤ max_attempts ∧
    (wait_for_backend_sync portOpen healthy max_attempts).sleeps * POLL_INTERVAL_MS ≤
      max_attempts * POLL_INTERVAL_MS + POLL_INTERVAL_MS ∧
    (wait_for_backend ready max_seconds).2.1 ≤ max_seconds * 2 ∧
    (wait_for_backend ready max_seconds).2.2 * POLL_INTERVAL_MS ≤
      max_seconds * 2 * POLL_INTERVAL_MS + POLL_INTERVAL_MS := by
  refine ⟨waitAux_attempts_le portOpen healthy 1 max_attempts, ?_,
    (waitDAux_le ready 1 (max_seconds * 2)).1, ?_⟩
  · have := waitAux_sleeps_le portOpen healthy 1 max_attempts
    have : (wait_for_backend_sync portOpen healthy max_attempts).sleeps * POLL_INTERVAL_MS ≤
        max_attempts * POLL_INTERVAL_MS := Nat.mul_le_mul_right _ this
    omega
  · have := (waitDAux_le ready 1 (max_seconds * 2)).2
    have : (wait_for_backend ready max_seconds).2.2 * POLL_INTERVAL_MS ≤
        max_seconds * 2 * POLL_INTERVAL_MS := Nat.mul_le_mul_right _ this
    omega

/-- Result of `spawn_backend`: `Ok((child, port))` or `Err(msg)`. The child
handle is identified by its pid. -/
inductive SpawnOutcome where
  | ok (pid : Nat) (port : Nat)
  | err (msg : String)
deriving DecidableEq, Repr

/-- Oracles for the external effects of `spawn_backend` and of the `setup`
hook: whether `is_backend_already_running()` (a TCP probe of port 8000)
reports true at its call site inside `spawn_backend`, the result of
`Command::new_sidecar("photosense-backend")`, the result of `.spawn()`
(the child pid on success), and what the re-probe in `setup`'s `Err` branch
reports. -/
structure SpawnEnv where
  alreadyRunning : Bool
  newSidecarRes : Except String Unit
  spawnRes : Except String Nat
  alreadyRunningRecheck : Bool

/-- Embedding of `spawn_backend` (frontend `main.rs:117-173`):

```
if is_backend_already_running() { return Err("Backend already running"); }
let (mut rx, child) = Command::new_sidecar("photosense-backend")
    .map_err(|e| ...)?.spawn().map_err(|e| ...)?;
let pid = child.pid();
BACKEND_PID.store(pid, Ordering::SeqCst);
... spawn output-relay task ...
Ok((child, BACKEND_PORT))
```

Returns the outcome, the updated globals, and whether an OS process was
actually spawned. -/
def spawn_backend (env : SpawnEnv) (g : TermGlobals) :
    SpawnOutcome × TermGlobals × Bool :=
  match env.alreadyRunning with
  | true => (.err "Backend already running", g, false)
  | false =>
    match env.newSidecarRes with
    | .error e => (.err ("Failed to create sidecar command: " ++ e), g, false)
    | .ok _ =>
      match env.spawnRes with
      | .error e => (.err ("Failed to spawn backend: " ++ e), g, false)
      | .ok pid => (.ok pid BACKEND_PORT, { g with backendPid := pid }, true)

/-- The `BackendState` managed state of the frontend wrapper. -/
structure BackendState where
  child : Option Nat
  port : Nat
  started : Bool
deriving DecidableEq, Repr

/-- Observable outcome of the `setup` hook: final managed state, final
globals, the events emitted to the frontend (`backend-ready` /
`backend-failed`), and whether a process was spawned. -/
structure SetupResult where
  state : BackendState
  globals : TermGlobals
  events : List String
  processSpawned : Bool
deriving Repr

/-- Embedding of the `.setup(...)` closure (frontend `main.rs:242-294`).
`waitOk` is the boolean `wait_for_backend_sync(port, MAX_STARTUP_ATTEMPTS)`
returns in the background thread; the thread's effects (marking `started`,
emitting `backend-ready` or `backend-failed`) are folded in sequentially:

```
match spawn_backend() {
  Ok((child, port)) => { state.child = Some(child); state.port = port;
    thread::spawn(|| if wait_for_backend_sync(port, MAX_STARTUP_ATTEMPTS)
      { state.started = true; emit_all("backend-ready", port) }
      else { emit_all("backend-failed", ...) }) }
  Err(e) => if is_backend_already_running()
    { state.started = true; emit_all("backend-ready", BACKEND_PORT) }
    else { eprintln ... (no event) } }
```
-/
def setup (env : SpawnEnv) (waitOk : Bool) (st : BackendState) (g : TermGlobals) :
    SetupResult :=
  match spawn_backend env g with
  | (.ok pid port, g2, sp) =>
    let st1 : BackendState := { st with child := some pid, port := port }
    match waitOk with
    | true => ⟨{ st1 with started := true }, g2, ["backend-ready"], sp⟩
    | false => ⟨st1, g2, ["backend-failed"], sp⟩
  | (.err _, g2, sp) =>
    match env.alreadyRunningRecheck with
    | true => ⟨{ st with started := true }, g2, ["backend-ready"], sp⟩
    | false => ⟨st, g2, [], sp⟩

theorem waitAux_healthCalls (p h : Nat → Bool) (f : Nat) :
    ∀ s a, a ∈ (waitAux p h s f).healthCalls → p a = true := by
  induction f with
  | zero => intro s a ha; simp [waitAux] at ha
  | succ f ih =>
    intro s a ha
    cases hps : p s with
    | true =>
      cases hhs : h s with
      | true =>
        simp [waitAux, hps, hhs] at ha
        subst ha; exact hps
      | false =>
        simp only [waitAux, hps, hhs] at ha
        rcases List.mem_cons.mp ha with h1 | h2
        · subst h1; exact hps
        · exact ih (s + 1) a h2
    | false =>
      simp only [waitAux, hps] at ha
      exact ih (s + 1) a ha

theorem waitAux_success (p h : Nat → Bool) (f : Nat) :
    ∀ s k, s ≤ k → k < s + f → p k = true → h k = true →
    (∀ j, s ≤ j → j < k → p j = true → h j = false) →
    (waitAux p h s f).result = true ∧ (waitAux p h s f).attempts = k - s + 1 ∧
    (waitAux p h s f).sleeps = k - s := by
  induction f with
  | zero => intro s k hs hf _ _ _; omega
  | succ f ih =>
    intro s k hs hf hp hh hmin
    by_cases hsk : s = k
    · subst hsk
      simp [waitAux, hp, hh]
    · have hlt : s < k := lt_of_le_of_ne hs hsk
      have ihs := ih (s + 1) k (by omega) (by omega) hp hh
        (fun j hj hjk hpj => hmin j (by omega) hjk hpj)
      cases hps : p s with
      | true =>
        have hhs : h s = false := hmin s le_rfl hlt hps
        simp only [waitAux, hps, hhs]
        refine ⟨ihs.1, ?_, ?_⟩
        · have h2 := ihs.2.1; omega
        · have h2 := ihs.2.2; omega
      | false =>
        simp only [waitAux, hps]
        refine ⟨ihs.1, ?_, ?_⟩
        · have h2 := ihs.2.1; omega
        · have h2 := ihs.2.2; omega

/-- C3: shape of a successful readiness poll. If attempt `k` (with
`1 ≤ k ≤ max_attempts`) is the first attempt at which the port probe and
the health check both succeed (no earlier attempt with an open port has a
passing health check), then `wait_for_backend_sync` returns true, it does so
exactly at attempt `k`, it slept the fixed 500 ms interval exactly `k - 1`
times (once between consecutive attempts), the health check was only ever
invoked on attempts whose port probe succeeded on that same iteration, and
on the spawn-success path of `setup` the earlier failed attempts surface no
`backend-failed` event to the host — only `backend-ready` is emitted. -/
theorem C3_first_success (portOpen healthy : Nat → Bool) (maxA k : Nat)
    (h1 : 1 ≤ k) (hk : k ≤ maxA)
    (hp : portOpen k = true) (hh : healthy k = true)
    (hfirst : ∀ j, 1 ≤ j → j < k → portOpen j = true → healthy j = false) :
    (wait_for_backend_sync portOpen healthy maxA).result = true ∧
    (wait_for_backend_sync portOpen healthy maxA).attempts = k ∧
    (wait_for_backend_sync portOpen healthy maxA).sleeps = k - 1 ∧
    (∀ a ∈ (wait_for_backend_sync portOpen healthy maxA).healthCalls,
      portOpen a = true) ∧
    (∀ env st g pid port g2 sp, spawn_backend env g = (.ok pid port, g2, sp) →
      (setup env (wait_for_backend_sync portOpen healthy maxA).result st g).events =
        ["backend-ready"]) := by
  have hs := waitAux_success portOpen healthy maxA 1 k h1 (by omega) hp hh hfirst
  refine ⟨hs.1, ?_, ?_, fun a ha => waitAux_healthCalls portOpen healthy maxA 1 a ha, ?_⟩
  · have h2 := hs.2.1
    unfold wait_for_backend_sync at h2 ⊢
    omega
  · have h2 := hs.2.2
    unfold wait_for_backend_sync at h2 ⊢
    omega
  · intro env st g pid port g2 sp hok
    simp [setup, hok, wait_for_backend_sync, hs.1]

/-- Witness for C3: port open from attempt 3, health passing from
attempt 4; the loop reports success at attempt 4 after three sleeps. -/
theorem C3_first_success_witness :
    (wait_for_backend_sync (fun a => decide (3 ≤ a)) (fun a => decide (4 ≤ a))
      MAX_STARTUP_ATTEMPTS).result = true ∧
    (wait_for_backend_sync (fun a => decide (3 ≤ a)) (fun a => decide (4 ≤ a))
      MAX_STARTUP_ATTEMPTS).attempts = 4 ∧
    (wait_for_backend_sync (fun a => decide (3 ≤ a)) (fun a => decide (4 ≤ a))
      MAX_STARTUP_ATTEMPTS).sleeps = 3 := by
  have h := C3_first_success (fun a => decide (3 ≤ a)) (fun a => decide (4 ≤ a))
    MAX_STARTUP_ATTEMPTS 4 (by omega) (by decide) (by decide) (by decide)
    (by intro j hj hjk hpj; revert hpj; interval_cases j <;> decide)
  exact ⟨h.1, h.2.1, h.2.2.1⟩

/-- C4: attach policy. When the backend endpoint is already reachable as
`spawn_backend` runs its duplicate-instance probe and is still reachable at
`setup`'s re-probe, `spawn_backend` returns the `AlreadyRunning` error
before any spawn attempt, leaving the globals untouched and spawning no
process; `setup` treats this as attaching to the existing instance: it
marks `started := true`, emits exactly one `backend-ready` notification,
and stores no child handle (the handle stays absent). -/
theorem C4_attach_existing (env : SpawnEnv) (st : BackendState) (g : TermGlobals)
    (w : Bool) (h1 : env.alreadyRunning = true) (h2 : env.alreadyRunningRecheck = true)
    (hc : st.child = none) :
    spawn_backend env g = (.err "Backend already running", g, false) ∧
    (setup env w st g).processSpawned = false ∧
    (setup env w st g).state.started = true ∧
    (setup env w st g).events = ["backend-ready"] ∧
    (setup env w st g).state.child = none ∧
    (setup env w st g).globals = g := by
  have hsb : spawn_backend env g = (.err "Backend already running", g, false) := by
    simp [spawn_backend, h1]
  refine ⟨hsb, ?_, ?_, ?_, ?_, ?_⟩ <;> simp [setup, hsb, h2, hc]

/-- Witness for C4 at a concrete environment and state. -/
theorem C4_attach_existing_witness :
    (setup ⟨true, .ok (), .ok 42, true⟩ false ⟨none, 8000, false⟩ initGlobals).processSpawned
        = false ∧
    (setup ⟨true, .ok (), .ok 42, true⟩ false ⟨none, 8000, false⟩ initGlobals).state.started
        = true ∧
    (setup ⟨true, .ok (), .ok 42, true⟩ false ⟨none, 8000, false⟩ initGlobals).events
        = ["backend-ready"] ∧
    (setup ⟨true, .ok (), .ok 42, true⟩ false ⟨none, 8000, false⟩ initGlobals).state.child
        = none := by
  have h := C4_attach_existing ⟨true, .ok (), .ok 42, true⟩ ⟨none, 8000, false⟩
    initGlobals false rfl rfl rfl
  exact ⟨h.2.1, h.2.2.1, h.2.2.2.1, h.2.2.2.2.1⟩

/-- C7: whenever `spawn_backend` returns `Ok((child, port))`, the global
`BACKEND_PID` has already been stored as the spawned child's pid in the
returned globals — the store happens inside `spawn_backend`, before control
returns — and the success path is exactly the path that spawned a process,
so a cleanup trigger firing after a successful spawn reads the correct pid. -/
theorem C7_pid_recorded (env : SpawnEnv) (g g2 : TermGlobals) (pid port : Nat)
    (sp : Bool) (h : spawn_backend env g = (.ok pid port, g2, sp)) :
    g2.backendPid = pid ∧ sp = true ∧
    (g2.cleanupDone = false → pid ≠ 0 → (kill_backend_by_pid g2).2 = some pid) ∧
    g2.cleanupDone = g.cleanupDone := by
  unfold spawn_backend at h
  cases har : env.alreadyRunning with
  | true => rw [har] at h; simp at h
  | false =>
    rw [har] at h
    cases hns : env.newSidecarRes with
    | error e => rw [hns] at h; simp at h
    | ok u =>
      rw [hns] at h
      cases hsr : env.spawnRes with
      | error e => rw [hsr] at h; simp at h
      | ok p =>
        rw [hsr] at h
        simp only [SpawnOutcome.ok.injEq, Prod.mk.injEq] at h
        obtain ⟨⟨hpid, _⟩, hg2, hsp⟩ := h
        subst hpid; subst hg2
        refine ⟨rfl, hsp.symm, fun hcd hpz => ?_, rfl⟩
        simp only [TermGlobals.cleanupDone] at hcd
        simp [kill_backend_by_pid, hcd, hpz]

/-- Witness for C7 at a concrete successful spawn. -/
theorem C7_pid_recorded_witness :
    (spawn_backend ⟨false, .ok (), .ok 314, false⟩ initGlobals).2.1.backendPid = 314 := by
  exact (C7_pid_recorded ⟨false, .ok (), .ok 314, false⟩ initGlobals
    ⟨314, false⟩ 314 BACKEND_PORT true rfl).1

/-- The relative resource path of the backend executable in the desktop
wrapper (the non-Windows branch; the Windows branch only appends `.exe`). -/
def backend_name : String := "resources/backend/photosense-backend"

/-- Oracles for the external effects of the desktop wrapper's
`start_backend`: the result of `path_resolver().resolve_resource(...)`, the
`backend_path.exists()` filesystem probe, `backend_path.parent()`, whether
the backend log file could be opened and its handle cloned, and the result
of `Command::new(...).spawn()` (the child pid on success). -/
structure DesktopEnv where
  resolvedPath : Option String
  pathExists : String → Bool
  parentDir : String → Option String
  logOpenOk : Bool
  logCloneOk : Bool
  spawnRes : Except String Nat

/-- Embedding of `start_backend` (desktop `main.rs:57-175`; the
`#region agent log` debug-file writes are pure logging and omitted):

```
let backend_path = app.path_resolver().resolve_resource(backend_name)
    .ok_or_else(|| format!("Backend resource not found: {}", backend_name))?;
if !backend_path.exists() {
    return Err(format!("Backend executable does not exist at: {}", ...)); }
let backend_dir = backend_path.parent() ... ;
... set permissions 0o755 (best-effort), open + clone log handle ... ;
let child = Command::new(&backend_path)...spawn().map_err(...)?;
Ok(child)
```

Returns the result plus whether `Command::spawn` was invoked (a spawn was
attempted). -/
def start_backend (env : DesktopEnv) : Except String Nat × Bool :=
  match env.resolvedPath with
  | none => (.error ("Backend resource not found: " ++ backend_name), false)
  | some p =>
    match env.pathExists p with
    | false => (.error ("Backend executable does not exist at: " ++ p), false)
    | true =>
      match env.parentDir p with
      | none => (.error ("Backend directory not found for: " ++ p), false)
      | some _ =>
        match env.logOpenOk with
        | false => (.error "Failed to open backend log file", false)
        | true =>
          match env.logCloneOk with
          | false => (.error "Failed to clone log handle", false)
          | true =>
            match env.spawnRes with
            | .error e => (.error ("Failed to spawn backend: " ++ e), true)
            | .ok pid => (.ok pid, true)

/-- The desktop wrapper's managed state, `struct BackendState { child: Option<Child> }`. -/
structure DState where
  child : Option Nat
deriving DecidableEq, Repr

/-- Embedding of the desktop `.setup(...)` closure (desktop
`main.rs:185-215`): on `Ok(child)` the handle is stored; on `Err(e)` the
error is only logged and the state is left unchanged. -/
def desktop_setup (env : DesktopEnv) (st : DState) : DState :=
  match (start_backend env).1 with
  | .ok pid => ⟨some pid⟩
  | .error _ => st

/-- C5: missing executable aborts before spawn. If the resource path cannot
be resolved, or it resolves to a path that does not exist on disk,
`start_backend` returns the corresponding resource-not-found error, no
spawn is ever attempted (so no child process is created), and the stored
handle remains absent after `setup` — the lifecycle never reaches the
started/`Starting` stage. -/
theorem C5_resource_not_found (env : DesktopEnv) (st : DState)
    (hc : st.child = none)
    (h : env.resolvedPath = none ∨
      ∃ p, env.resolvedPath = some p ∧ env.pathExists p = false) :
    (start_backend env).2 = false ∧
    ((start_backend env).1 = .error ("Backend resource not found: " ++ backend_name) ∨
      ∃ p, env.resolvedPath = some p ∧
        (start_backend env).1 = .error ("Backend executable does not exist at: " ++ p)) ∧
    (desktop_setup env st).child = none := by
  rcases h with h | ⟨p, hp, hex⟩
  · refine ⟨?_, .inl ?_, ?_⟩ <;> simp [start_backend, desktop_setup, h, hc]
  · refine ⟨?_, .inr ⟨p, hp, ?_⟩, ?_⟩ <;>
      simp [start_backend, desktop_setup, hp, hex, hc]

/-- Witness for C5: the path resolves but does not exist on disk. -/
theorem C5_resource_not_found_witness :
    (start_backend ⟨some "/x/photosense-backend", fun _ => false, fun _ => none,
      true, true, .ok 9⟩).2 = false ∧
    (desktop_setup ⟨some "/x/photosense-backend", fun _ => false, fun _ => none,
      true, true, .ok 9⟩ ⟨none⟩).child = none := by
  have h := C5_resource_not_found ⟨some "/x/photosense-backend", fun _ => false,
    fun _ => none, true, true, .ok 9⟩ ⟨none⟩ rfl
    (.inr ⟨"/x/photosense-backend", rfl, rfl⟩)
  exact ⟨h.1, h.2.2⟩

/-- The combined mutable state visible to `cleanup_backend`: the managed
`BackendState` behind the mutex and the termination globals. -/
structure FullState where
  bs : BackendState
  g : TermGlobals
deriving DecidableEq, Repr

/-- Embedding of `cleanup_backend` (frontend `main.rs:202-214`):

```
if let Ok(mut state_guard) = state.lock() {
    if let Some(child) = state_guard.child.take() {
        let _ = child.kill();
        state_guard.started = false; } }
kill_backend_by_pid();
```

Returns the new state and the list of pids that were sent a kill (the
graceful `child.kill()` first, then any forceful kill the PID fallback
issued). The lock acquisition cannot fail in the model (no poisoning). -/
def cleanup_backend (s : FullState) : FullState × List Nat :=
  match s.bs.child with
  | some pid =>
    (⟨{ s.bs with child := none, started := false }, (kill_backend_by_pid s.g).1⟩,
      pid :: (kill_backend_by_pid s.g).2.toList)
  | none =>
    (⟨s.bs, (kill_backend_by_pid s.g).1⟩, (kill_backend_by_pid s.g).2.toList)

/-- `n` successive calls of `cleanup_backend` (window close, exit event,
repeated triggers), with the accumulated kill effects. -/
def cleanupN : Nat → FullState → FullState × List Nat
  | 0, s => (s, [])
  | n + 1, s =>
    ((cleanupN n (cleanup_backend s).1).1,
      (cleanup_backend s).2 ++ (cleanupN n (cleanup_backend s).1).2)

theorem cleanup_fixed (s : FullState) :
    cleanup_backend (cleanup_backend s).1 = ((cleanup_backend s).1, []) := by
  have hdone := kill_sets_done s.g
  have hkill := kill_done_eq (kill_backend_by_pid s.g).1 hdone
  cases hc : s.bs.child <;> simp [cleanup_backend, hc, hkill]

theorem cleanupN_fixed (n : Nat) (s : FullState)
    (h : cleanup_backend s = (s, [])) : cleanupN n s = (s, []) := by
  induction n with
  | zero => rfl
  | succ n ih => simp [cleanupN, h, ih]

/-- C6: `cleanup_backend` is idempotent. For every `n ≥ 1`, calling it `n`
times from any state yields exactly the state and the kill effects of
calling it once: the first call takes the child handle out (killing it if
present) and the handle is absent afterwards; every later call finds no
handle, performs no kill at all (neither the graceful child kill nor the
PID-based fallback), and leaves the state unchanged. -/
theorem C6_cleanup_idempotent (s : FullState) (n : Nat) (hn : 1 ≤ n) :
    cleanupN n s = ((cleanup_backend s).1, (cleanup_backend s).2) ∧
    (cleanup_backend s).1.bs.child = none ∧
    (∀ pid, s.bs.child = some pid →
      (cleanup_backend s).2 = pid :: (kill_backend_by_pid s.g).2.toList) ∧
    cleanup_backend (cleanup_backend s).1 = ((cleanup_backend s).1, []) := by
  obtain ⟨m, rfl⟩ : ∃ m, n = m + 1 := ⟨n - 1, by omega⟩
  have hfix := cleanup_fixed s
  have hN := cleanupN_fixed m (cleanup_backend s).1 hfix
  refine ⟨?_, ?_, ?_, hfix⟩
  · simp [cleanupN, hN]
  · cases hc : s.bs.child <;> simp [cleanup_backend, hc]
  · intro pid hp; simp [cleanup_backend, hp]

/-- Witness for C6: three cleanups from a state holding child pid 7 equal
one cleanup, which kills pid 7 gracefully and pid 9 via the PID fallback. -/
theorem C6_cleanup_idempotent_witness :
    cleanupN 3 ⟨⟨some 7, 8000, true⟩, ⟨9, false⟩⟩ =
      ((cleanup_backend ⟨⟨some 7, 8000, true⟩, ⟨9, false⟩⟩).1,
        (cleanup_backend ⟨⟨some 7, 8000, true⟩, ⟨9, false⟩⟩).2) ∧
    (cleanup_backend ⟨⟨some 7, 8000, true⟩, ⟨9, false⟩⟩).1.bs.child = none := by
  have h := C6_cleanup_idempotent ⟨⟨some 7, 8000, true⟩, ⟨9, false⟩⟩ 3 (by omega)
  exact ⟨h.1, h.2.1⟩

/-- Failure modes of the single `ureq::get(url).timeout(2s).call()` the
health check performs: a transport error (connection failure or timeout) or
an HTTP-level error response (the client yields `Err` for error statuses). -/
inductive HttpError where
  | transport
  | status (code : Nat)
deriving DecidableEq, Repr

/-- Embedding of `check_backend_health_sync` (frontend `main.rs:84-93`).
The oracle `resp` is the outcome of the one HTTP GET to
`http://127.0.0.1:{port}/health`; the second component counts the HTTP
requests issued:

```
match ureq::get(&url).timeout(Duration::from_secs(2)).call() {
    Ok(response) => response.status() == 200,
    Err(_) => false,
}
```
-/
def check_backend_health_sync (resp : Except HttpError Nat) : Bool × Nat :=
  match resp with
  | .ok status => (status == 200, 1)
  | .error _ => (false, 1)

/-- C8: the health check issues exactly one HTTP request — it never retries
internally, whatever the outcome — and it returns true exactly when the one
response carried status 200; hence true only for a success-class (2xx)
status, and false on every network error, timeout, or non-success status. -/
theorem C8_health_check (resp : Except HttpError Nat) :
    (check_backend_health_sync resp).2 = 1 ∧
    ((check_backend_health_sync resp).1 = true ↔ resp = .ok 200) ∧
    ((check_backend_health_sync resp).1 = true →
      ∃ s, resp = .ok s ∧ 200 ≤ s ∧ s ≤ 299) ∧
    (∀ e, resp = .error e → (check_backend_health_sync resp).1 = false) := by
  cases resp with
  | ok s =>
    refine ⟨rfl, ?_, ?_, by intro e he; cases he⟩
    · constructor
      · intro h
        have : s = 200 := by
          simpa [check_backend_health_sync] using h
        simp [this]
      · intro h
        cases h
        simp [check_backend_health_sync]
    · intro h
      have hs : s = 200 := by
        simpa [check_backend_health_sync] using h
      exact ⟨s, by simp [hs], by omega, by omega⟩
  | error e =>
    refine ⟨rfl, ?_, ?_, fun _ _ => rfl⟩
    · simp [check_backend_health_sync]
    · intro h; cases h

/-- Witness for C8: a 200 response yields true; a 500 error-status response
and a transport error yield false; each issues exactly one request. -/
theorem C8_health_check_witness :
    (check_backend_health_sync (.ok 200)).1 = true ∧
    (check_backend_health_sync (.error (.status 500))).1 = false ∧
    (check_backend_health_sync (.error .transport)).2 = 1 :=
  ⟨(C8_health_check (.ok 200)).2.1.mpr rfl,
    (C8_health_check (.error (.status 500))).2.2.2 (.status 500) rfl,
    (C8_health_check (.error .transport)).1⟩

/-- Prefix test on character lists (structural, kernel-evaluable). -/
def charsPrefixEq : List Char → List Char → Bool
  | [], _ => true
  | _ :: _, [] => false
  | a :: as, b :: bs => a == b && charsPrefixEq as bs

/-- Substring occurrence test on character lists. -/
def charsContain (pat : List Char) : List Char → Bool
  | [] => charsPrefixEq pat []
  | c :: cs => charsPrefixEq pat (c :: cs) || charsContain pat cs

/-- Rust's `str::contains(pat)` for literal patterns. -/
def containsSub (s pat : String) : Bool :=
  charsContain pat.data s.data

/-- The events delivered on the sidecar's event channel
(`tauri::api::process::CommandEvent`). -/
inductive CommandEvent where
  | stdout (line : String)
  | stderr (line : String)
  | cmdError (err : String)
  | terminated (code : Option Int)
deriving DecidableEq, Repr

/-- What the relay forwards to the logging sink for one event: an
informational line (`println!`) or a warning/error line (`eprintln!`). -/
inductive LogMsg where
  | info (line : String)
  | warn (line : String)
deriving DecidableEq, Repr

/-- The stdout suppression filter of the relay: the three noisy uvicorn
startup banner substrings. -/
def isStartupNoise (line : String) : Bool :=
  containsSub line "Started server process" ||
  containsSub line "Waiting for application startup" ||
  containsSub line "Application startup complete"

/-- The stderr severity test of the relay: the error markers. -/
def hasErrorMarker (line : String) : Bool :=
  containsSub line "ERROR" || containsSub line "error" ||
  containsSub line "Exception"

/-- Embedding of the output-relay task body spawned inside `spawn_backend`
(frontend `main.rs:141-170`), one channel event at a time:

```
CommandEvent::Stdout(line) =>
  if !line.contains("Started server process")
      && !line.contains("Waiting for application startup")
      && !line.contains("Application startup complete")
  { println!("[Backend] {}", line); }
CommandEvent::Stderr(line) =>
  if line.contains("ERROR") || line.contains("error")
      || line.contains("Exception")
  { eprintln!("[Backend] {}", line); }
CommandEvent::Error(err) => eprintln!("[Backend ERROR] {}", err);
CommandEvent::Terminated(payload) =>
  { println!(...); BACKEND_PID.store(0, Ordering::SeqCst); }
```

Returns the updated globals and what, if anything, was forwarded to the
sink. -/
def relayEvent (g : TermGlobals) : CommandEvent → TermGlobals × Option LogMsg
  | .stdout line =>
    match isStartupNoise line with
    | true => (g, none)
    | false => (g, some (.info line))
  | .stderr line =>
    match hasErrorMarker line with
    | true => (g, some (.warn line))
    | false => (g, none)
  | .cmdError err => (g, some (.warn err))
  | .terminated _ => ({ g with backendPid := 0 }, some (.info "Process terminated"))

/-- Modelled from the spec's words (C9 / spec §4.4): for each line of either
output stream the relay applies the suppression filter, then the severity
classifier — lines containing error markers are surfaced as warnings, all
other non-suppressed lines are forwarded as informational. This is the
behaviour the claim asserts, stated as a definition to compare against
`relayEvent`, the behaviour of the source. -/
def relayClaimed : CommandEvent → Option LogMsg
  | .stdout line | .stderr line =>
    match isStartupNoise line with
    | true => none
    | false =>
      match hasErrorMarker line with
      | true => some (.warn line)
      | false => some (.info line)
  | .cmdError err => some (.warn err)
  | .terminated _ => some (.info "Process terminated")

/-- Counterexample to C9 at two concrete lines. A stderr line carrying no
error marker ("INFO: Uvicorn running", not a suppressed banner either) is
dropped by the source relay, while the claim requires it forwarded as
informational; and a stdout line containing the error marker "error" is
forwarded by the source as informational, while the claim requires it
surfaced as a warning. -/
theorem C9_counterexample :
    (relayEvent ⟨77, false⟩ (CommandEvent.stderr "INFO: Uvicorn running")).2 = none ∧
    relayClaimed (CommandEvent.stderr "INFO: Uvicorn running") =
      some (LogMsg.info "INFO: Uvicorn running") ∧
    (relayEvent ⟨77, false⟩ (CommandEvent.stdout "error while indexing")).2 =
      some (LogMsg.info "error while indexing") ∧
    relayClaimed (CommandEvent.stdout "error while indexing") =
      some (LogMsg.warn "error while indexing") := by
  refine ⟨?_, ?_, ?_, ?_⟩ <;> decide

/-- C9 as amended: the relay filters per stream, not uniformly. Every
stdout line matching the startup-banner suppression filter is dropped and
every other stdout line is forwarded as informational (regardless of error
markers); a stderr line is forwarded — as a warning — exactly when it
contains an error marker, and is dropped otherwise; channel error events
are always surfaced as warnings; relaying stdout/stderr lines never touches
the recorded pid; and on lines that are neither suppressed nor
error-marked, stdout relaying agrees with the claimed classifier. -/
theorem C9_relay_filtering (g : TermGlobals) (line err : String) :
    (isStartupNoise line = true → (relayEvent g (.stdout line)).2 = none) ∧
    (isStartupNoise line = false →
      (relayEvent g (.stdout line)).2 = some (.info line)) ∧
    (hasErrorMarker line = true →
      (relayEvent g (.stderr line)).2 = some (.warn line)) ∧
    (hasErrorMarker line = false → (relayEvent g (.stderr line)).2 = none) ∧
    (relayEvent g (.cmdError err)).2 = some (.warn err) ∧
    (relayEvent g (.stdout line)).1 = g ∧
    (relayEvent g (.stderr line)).1 = g ∧
    (isStartupNoise line = false → hasErrorMarker line = false →
      (relayEvent g (.stdout line)).2 = relayClaimed (.stdout line)) := by
  refine ⟨fun h => ?_, fun h => ?_, fun h => ?_, fun h => ?_, rfl, ?_, ?_,
    fun h1 h2 => ?_⟩
  · simp [relayEvent, h]
  · simp [relayEvent, h]
  · simp [relayEvent, h]
  · simp [relayEvent, h]
  · cases hn : isStartupNoise line <;> simp [relayEvent, hn]
  · cases hm : hasErrorMarker line <;> simp [relayEvent, hm]
  · simp [relayEvent, relayClaimed, h1, h2]

/-- Witness for C9's amended theorem at concrete lines: a banner line is
dropped, a plain line is informational, a marked stderr line is a warning. -/
theorem C9_relay_filtering_witness :
    (relayEvent ⟨3, false⟩ (.stdout "INFO: Application startup complete.")).2 = none ∧
    (relayEvent ⟨3, false⟩ (.stdout "indexed 12 photos")).2 =
      some (.info "indexed 12 photos") ∧
    (relayEvent ⟨3, false⟩ (.stderr "ERROR: model load failed")).2 =
      some (.warn "ERROR: model load failed") := by
  have h1 := C9_relay_filtering ⟨3, false⟩ "INFO: Application startup complete." ""
  have h2 := C9_relay_filtering ⟨3, false⟩ "indexed 12 photos" ""
  have h3 := C9_relay_filtering ⟨3, false⟩ "ERROR: model load failed" ""
  exact ⟨h1.1 (by decide), h2.2.1 (by decide), h3.2.2.1 (by decide)⟩

/-- C10: no kill for a backend already observed to exit. Processing a
`Terminated` channel event resets the recorded pid to 0; invoking
`kill_backend_by_pid` on the resulting state issues no kill signal, and more
generally any state whose recorded pid is 0 — whether or not the one-shot
flag is already set — makes `kill_backend_by_pid` return without killing,
so cleanup never signals a possibly recycled pid. -/
theorem C10_pid_cleared_on_exit (g : TermGlobals) (code : Option Int) (f : Bool) :
    (relayEvent g (.terminated code)).1.backendPid = 0 ∧
    (kill_backend_by_pid (relayEvent g (.terminated code)).1).2 = none ∧
    (kill_backend_by_pid ⟨0, f⟩).2 = none := by
  refine ⟨rfl, ?_, ?_⟩
  · cases hd : g.cleanupDone <;> simp [relayEvent, kill_backend_by_pid, hd]
  · cases f <;> simp [kill_backend_by_pid]

end PhotoSense
